import Mathlib

/-!
# Verification of the Assamese translation service

A shallow embedding of the translation web application (`app.py`, `models.py`):
the two provider clients (`translate_with_mymemory`, `translate_with_libretranslate`),
the `/translate` request handler with its fallback sequencing and best-effort
history persistence, and the `/history` query.

External effects are made explicit: the network behaviour of each provider call,
the parsed JSON request body, the authentication state and the storage layer's
behaviour are inputs to the embedded functions; Python exceptions are modelled
with `Except`, and a function that never lets an exception escape is embedded
as a total Lean function.
-/

namespace App

/-- Model of a parsed JSON (Python) value, as far as the code inspects it. -/
inductive JVal where
  | nullv : JVal
  | bool : Bool → JVal
  | num : Int → JVal
  | str : String → JVal
  | arr : List JVal → JVal
  | obj : List (String × JVal) → JVal

/-- Python `dict.get key` on the field list of a JSON object (first match). -/
def lookupField : List (String × JVal) → String → Option JVal
  | [], _ => none
  | (k, v) :: rest, key => if k = key then some v else lookupField rest key

/-- Python truthiness of a JSON value. -/
def jTruthy : JVal → Bool
  | .nullv => false
  | .bool b => b
  | .num n => n != 0
  | .str s => s != ""
  | .arr xs => !xs.isEmpty
  | .obj fs => !fs.isEmpty

/-- Python `value == 200` for an optional JSON value (`dict.get` result). -/
def jEq200 : Option JVal → Bool
  | some (.num n) => n == 200
  | _ => false

/-- Python `str.strip()`: drop whitespace from both ends. -/
def pyStrip (s : String) : String :=
  ⟨((s.data.dropWhile Char.isWhitespace).reverse.dropWhile Char.isWhitespace).reverse⟩

/-- Result of decoding an HTTP response body: `result = response.json()`
either parses to a value or raises (carrying the exception text). -/
inductive JBody where
  | parseError : String → JBody
  | val : JVal → JBody

/-- Behaviour of one outbound HTTP call: either the `requests` call raises
(timeout, connection failure, any unexpected exception — carrying the
exception text), or a response arrives with a status code and a body. -/
inductive NetResp where
  | exn : String → NetResp
  | got : Nat → JBody → NetResp

/-- `translated_text.strip() if translated_text else None` applied to the JSON
value read from the provider body: falsy gives `None`; a truthy string is
stripped; `.strip()` on a truthy non-string raises `AttributeError`. -/
def stripField (tt : JVal) : Except String (Option String) :=
  if jTruthy tt then
    match tt with
    | .str s => .ok (some (pyStrip s))
    | _ => .error "AttributeError"
  else .ok none

/-- Body of MyMemory response handling (app.py lines 85-88): requires
`result.get` (an object), checks `responseStatus == 200`, then reads
`responseData` (default `{}`) and its `translatedText` (default `''`). -/
def readMyMemory (result : JVal) : Except String (Option String) :=
  match result with
  | .obj fs =>
    if jEq200 (lookupField fs "responseStatus") then
      match (lookupField fs "responseData").getD (.obj []) with
      | .obj rd => stripField ((lookupField rd "translatedText").getD (.str ""))
      | _ => .error "AttributeError"
    else .ok none
  | _ => .error "AttributeError"

/-- The try-block of `translate_with_mymemory` (app.py lines 72-90): the
request, the status check, parsing, and field extraction; `.error` is a raised
exception (caught below), `.ok` a normal return. -/
def mymemoryInner (net : NetResp) : Except String (Option String) :=
  match net with
  | .exn msg => .error msg
  | .got status body =>
    if status = 200 then
      match body with
      | .parseError msg => .error msg
      | .val result => readMyMemory result
    else .ok none

/-- `translate_with_mymemory` (app.py lines 70-93): any exception is caught,
logged as `MyMemory API error: ...`, and turned into `None`. Returns the
result together with the log entries written. -/
def translate_with_mymemory (net : NetResp) : Option String × List String :=
  match mymemoryInner net with
  | .ok r => (r, [])
  | .error msg => (none, ["MyMemory API error: " ++ msg])

/-- Body of LibreTranslate response handling (app.py lines 118-120):
`result.get('translatedText', '')` then the strip-if-truthy expression. -/
def readLibre (result : JVal) : Except String (Option String) :=
  match result with
  | .obj fs => stripField ((lookupField fs "translatedText").getD (.str ""))
  | _ => .error "AttributeError"

/-- The try-block of `translate_with_libretranslate` (app.py lines 97-122). -/
def libretranslateInner (net : NetResp) : Except String (Option String) :=
  match net with
  | .exn msg => .error msg
  | .got status body =>
    if status = 200 then
      match body with
      | .parseError msg => .error msg
      | .val result => readLibre result
    else .ok none

/-- `translate_with_libretranslate` (app.py lines 95-125): any exception is
caught, logged as `LibreTranslate API error: ...`, and turned into `None`. -/
def translate_with_libretranslate (net : NetResp) : Option String × List String :=
  match libretranslateInner net with
  | .ok r => (r, [])
  | .error msg => (none, ["LibreTranslate API error: " ++ msg])

/-- Kind of a Python exception, as far as the handler's `except` clauses
distinguish them: `requests.exceptions.Timeout`,
`requests.exceptions.ConnectionError`, or any other `Exception`. -/
inductive PyExn where
  | timeout : PyExn
  | connErr : PyExn
  | other : PyExn
deriving DecidableEq

/-- Result of `request.get_json()`: either it raises, or it yields a parsed
JSON value (`null` becomes Python `None`). -/
inductive ReqBody where
  | raises : PyExn → ReqBody
  | val : JVal → ReqBody

/-- The JSON response the handler builds, with its HTTP status. -/
structure Response where
  status : Nat
  success : Bool
  error : Option String
  translated_text : Option String
  original_text : Option String
  service : Option String
deriving DecidableEq

/-- A row of the `translations` table (models.py lines 37-46), as written by
the handler; `id` and `created_at` are assigned by storage. -/
structure TranslationRecord where
  user_id : String
  original_text : String
  translated_text : String
  service_used : String
deriving DecidableEq

/-- The two provider clients, for recording which ones a request invoked. -/
inductive Provider where
  | mymemory : Provider
  | libretranslate : Provider
deriving DecidableEq

/-- The collaborators of one `/translate` request: the parsed body, the
network behaviour each provider call would observe, the session state, and
whether the history write (`db.session.add`/`commit`) raises. -/
structure Env where
  body : ReqBody
  mmNet : NetResp
  ltNet : NetResp
  authenticated : Bool
  userId : String
  persistRaises : Bool

/-- Everything observable about one handled request: the HTTP response, the
records committed to storage, and the providers invoked, in order. -/
structure HandlerResult where
  response : Response
  records : List TranslationRecord
  calls : List Provider
deriving DecidableEq

def emptyTextError : String := "Please enter some text to translate"

def unavailableError : String :=
  "Translation services are currently unavailable. Please try again later."

def timeoutError : String := "Translation request timed out. Please try again."

def connectError : String :=
  "Unable to connect to translation service. Please check your internet connection."

def unexpectedError : String := "An unexpected error occurred. Please try again."

/-- A 200 success body (app.py lines 160-165 and 187-192). -/
def okResponse (t orig svc : String) : Response :=
  ⟨200, true, none, some t, some orig, some svc⟩

/-- An error body with its status (app.py 135-138, 195-198, 200-215). -/
def errResponse (status : Nat) (msg : String) : Response :=
  ⟨status, false, some msg, none, none, none⟩

/-- `data = request.get_json()` followed by `text = data.get('text', '').strip()`
(app.py lines 131-132): raises (`AttributeError`, i.e. a generic `Exception`)
when `data` is `None` or not a dict, or when the `text` value is not a string. -/
def extractText (body : ReqBody) : Except PyExn String :=
  match body with
  | .raises e => .error e
  | .val data =>
    match data with
    | .obj fs =>
      match (lookupField fs "text").getD (.str "") with
      | .str s => .ok (pyStrip s)
      | _ => .error .other
    | _ => .error .other

/-- Python truthiness of a provider client result (`if translated_text:`):
`None` and the empty string are falsy. -/
def pyTruthyStr : Option String → Bool
  | none => false
  | some s => s != ""

/-- The history write (app.py lines 146-158 / 172-185): only for an
authenticated user; the record reaches storage only when `add`/`commit`
does not raise — a raise is caught and logged, leaving storage unchanged. -/
def saveHistory (env : Env) (orig t svc : String) : List TranslationRecord :=
  if env.authenticated then
    if env.persistRaises then [] else [⟨env.userId, orig, t, svc⟩]
  else []

/-- The fallback sequencing on a non-empty text (app.py lines 140-198):
MyMemory first; on a truthy result, record history and answer 200 with
service `MyMemory`; otherwise LibreTranslate the same way; otherwise 503. -/
def sequencerResult (env : Env) (text : String) : HandlerResult :=
  let r1 := (translate_with_mymemory env.mmNet).fst
  if pyTruthyStr r1 then
    let t := r1.getD ""
    ⟨okResponse t text "MyMemory", saveHistory env text t "MyMemory", [.mymemory]⟩
  else
    let r2 := (translate_with_libretranslate env.ltNet).fst
    if pyTruthyStr r2 then
      let t := r2.getD ""
      ⟨okResponse t text "LibreTranslate", saveHistory env text t "LibreTranslate",
        [.mymemory, .libretranslate]⟩
    else
      ⟨errResponse 503 unavailableError, [], [.mymemory, .libretranslate]⟩

/-- The try-block of the `/translate` handler (app.py lines 130-198). -/
def translateInner (env : Env) : Except PyExn HandlerResult :=
  match extractText env.body with
  | .error e => .error e
  | .ok text =>
    if text = "" then
      .ok ⟨errResponse 400 emptyTextError, [], []⟩
    else
      .ok (sequencerResult env text)

/-- The handler's `except` clauses (app.py lines 200-215): timeout to 504,
connection error to 503, anything else to 500. -/
def exnResult : PyExn → HandlerResult
  | .timeout => ⟨errResponse 504 timeoutError, [], []⟩
  | .connErr => ⟨errResponse 503 connectError, [], []⟩
  | .other => ⟨errResponse 500 unexpectedError, [], []⟩

/-- The `/translate` handler (app.py lines 127-215), total: every exception
escaping the try-block is mapped to an error response. -/
def translate (env : Env) : HandlerResult :=
  match translateInner env with
  | .ok r => r
  | .error e => exnResult e

/-- A stored row of the `translations` table as the `/history` query sees it. -/
structure StoredTranslation where
  id : Nat
  user_id : Option String
  original_text : String
  translated_text : String
  service_used : String
  created_at : Nat
deriving DecidableEq

/-- `a` sorts before `b` when `a` is at least as recent: the order produced
by `order_by(Translation.created_at.desc())`. -/
def newerFirst (a b : StoredTranslation) : Prop := b.created_at ≤ a.created_at

instance : DecidableRel newerFirst := fun a b => Nat.decLe b.created_at a.created_at

instance : IsTotal StoredTranslation newerFirst :=
  ⟨fun a b => Nat.le_total b.created_at a.created_at⟩

instance : IsTrans StoredTranslation newerFirst :=
  ⟨fun _ _ _ hab hbc => Nat.le_trans hbc hab⟩

/-- The `/history` query (app.py line 66): rows of the caller, newest first,
at most 50. -/
def historyQuery (store : List StoredTranslation) (uid : String) : List StoredTranslation :=
  (List.insertionSort newerFirst (store.filter (fun r => r.user_id == some uid))).take 50

/-- Outcome of `GET /history`: a redirect to the login flow, or the page
rendered over the query result. -/
inductive HistoryResult where
  | redirectLogin : HistoryResult
  | page : List StoredTranslation → HistoryResult
deriving DecidableEq

/-- The `/history` handler (app.py lines 59-68). -/
def history (authed : Bool) (uid : String) (store : List StoredTranslation) : HistoryResult :=
  if authed then .page (historyQuery store uid) else .redirectLogin

/-- `env` with a storage layer whose history write succeeds. -/
def withPersistOk (env : Env) : Env :=
  ⟨env.body, env.mmNet, env.ltNet, env.authenticated, env.userId, false⟩

/-- A response is well formed when its status is one the handler emits, its
`success` flag agrees with the status, and every failure carries an error
message. -/
def wellFormedResponse (r : Response) : Prop :=
  (r.status = 200 ∨ r.status = 400 ∨ r.status = 503 ∨ r.status = 504 ∨ r.status = 500) ∧
  (r.success = true ↔ r.status = 200) ∧
  (r.success = false → r.error ≠ none)

/-- A request body that is a JSON object with the given `text` field. -/
def textBody (s : String) : ReqBody := .val (.obj [("text", .str s)])

/-- A MyMemory exchange that succeeds with translated text `s`. -/
def mmOkNet (s : String) : NetResp :=
  .got 200 (.val (.obj [("responseStatus", .num 200),
    ("responseData", .obj [("translatedText", .str s)])]))

/-- A LibreTranslate exchange that succeeds with translated text `s`. -/
def ltOkNet (s : String) : NetResp :=
  .got 200 (.val (.obj [("translatedText", .str s)]))

/-- An exchange whose `requests` call raises. -/
def downNet : NetResp := .exn "connection refused"

def envW1 : Env := ⟨textBody "Hello", mmOkNet "Namaskar", downNet, false, "", false⟩

def envC1 : Env := ⟨textBody "Hi", mmOkNet " ", ltOkNet "ok", false, "", false⟩

def envW2 : Env := ⟨textBody "   ", mmOkNet "x", ltOkNet "y", true, "u1", false⟩

def envW5 : Env := ⟨textBody "Hi", mmOkNet "Hoi", downNet, true, "u2", true⟩

def envC6 : Env := ⟨textBody "Hi", mmOkNet "Hoi", downNet, true, "u3", true⟩

def envW6 : Env := ⟨textBody "Hi", mmOkNet "Hoi", downNet, true, "u9", false⟩

def envW8 : Env := ⟨.raises .timeout, downNet, downNet, false, "", false⟩

def envW9 : Env := ⟨.val (.arr []), mmOkNet "x", downNet, true, "u4", false⟩

def envW10 : Env := ⟨textBody " Hello ", mmOkNet "Hoi", downNet, false, "", false⟩

def storeW7 : List StoredTranslation :=
  [⟨1, some "u1", "Hi", "Hoi", "MyMemory", 5⟩, ⟨2, some "u2", "Go", "Ja", "MyMemory", 7⟩,
   ⟨3, some "u1", "Tea", "Sah", "LibreTranslate", 9⟩]

/-- A truthy client result is a non-empty string. -/
theorem pyTruthyStr_eq_true {o : Option String} (h : pyTruthyStr o = true) :
    ∃ s, o = some s ∧ s ≠ "" := by
  cases o with
  | none => simp [pyTruthyStr] at h
  | some s =>
    refine ⟨s, rfl, ?_⟩
    simpa [pyTruthyStr] using h

/-- `extractText` succeeds only on a JSON-object body. -/
theorem extractText_ok_obj {b : ReqBody} {t : String} (h : extractText b = .ok t) :
    ∃ fs, b = .val (.obj fs) := by
  cases b with
  | raises e => simp [extractText] at h
  | val v =>
    cases v with
    | obj fs => exact ⟨fs, rfl⟩
    | nullv => simp [extractText] at h
    | bool b => simp [extractText] at h
    | num n => simp [extractText] at h
    | str s => simp [extractText] at h
    | arr xs => simp [extractText] at h

/-- Case analysis of one handled request: the body raised, the text was
empty, or the fallback sequencer ran on the non-empty text. -/
theorem translate_cases (env : Env) :
    (∃ e, extractText env.body = .error e ∧ translate env = exnResult e) ∨
    (extractText env.body = .ok "" ∧
      translate env = ⟨errResponse 400 emptyTextError, [], []⟩) ∨
    (∃ t, extractText env.body = .ok t ∧ t ≠ "" ∧
      translate env = sequencerResult env t) := by
  rcases h : extractText env.body with e | t
  · exact Or.inl ⟨e, rfl, by simp [translate, translateInner, h]⟩
  · by_cases ht : t = ""
    · subst ht
      exact Or.inr (Or.inl ⟨rfl, by simp [translate, translateInner, h]⟩)
    · exact Or.inr (Or.inr ⟨t, rfl, ht, by simp [translate, translateInner, h, ht]⟩)

/-- Case analysis of the fallback sequencer: MyMemory truthy, else
LibreTranslate truthy, else both failed. -/
theorem sequencerResult_cases (env : Env) (t : String) :
    (∃ s, (translate_with_mymemory env.mmNet).fst = some s ∧ s ≠ "" ∧
      sequencerResult env t =
        ⟨okResponse s t "MyMemory", saveHistory env t s "MyMemory", [.mymemory]⟩) ∨
    (pyTruthyStr (translate_with_mymemory env.mmNet).fst = false ∧
      ∃ s, (translate_with_libretranslate env.ltNet).fst = some s ∧ s ≠ "" ∧
      sequencerResult env t =
        ⟨okResponse s t "LibreTranslate", saveHistory env t s "LibreTranslate",
          [.mymemory, .libretranslate]⟩) ∨
    (pyTruthyStr (translate_with_mymemory env.mmNet).fst = false ∧
      pyTruthyStr (translate_with_libretranslate env.ltNet).fst = false ∧
      sequencerResult env t =
        ⟨errResponse 503 unavailableError, [], [.mymemory, .libretranslate]⟩) := by
  by_cases h1 : pyTruthyStr (translate_with_mymemory env.mmNet).fst = true
  · obtain ⟨s, hs, hne⟩ := pyTruthyStr_eq_true h1
    refine Or.inl ⟨s, hs, hne, ?_⟩
    rw [hs] at h1
    simp [sequencerResult, hs, h1]
  · rw [Bool.not_eq_true] at h1
    by_cases h2 : pyTruthyStr (translate_with_libretranslate env.ltNet).fst = true
    · obtain ⟨s, hs, hne⟩ := pyTruthyStr_eq_true h2
      refine Or.inr (Or.inl ⟨h1, s, hs, hne, ?_⟩)
      rw [hs] at h2
      simp [sequencerResult, hs, h1, h2]
    · rw [Bool.not_eq_true] at h2
      exact Or.inr (Or.inr ⟨h1, h2, by simp [sequencerResult, h1, h2]⟩)

/-- The response of the sequencer does not depend on the storage layer. -/
theorem sequencerResult_response_persist (env : Env) (t : String) :
    (sequencerResult (withPersistOk env) t).response = (sequencerResult env t).response := by
  simp only [sequencerResult, withPersistOk]
  split
  · rfl
  · split <;> rfl

/-- The providers a request invokes: none, MyMemory alone, or MyMemory
followed by LibreTranslate. -/
theorem translate_calls (env : Env) :
    (translate env).calls = [] ∨ (translate env).calls = [Provider.mymemory] ∨
    (translate env).calls = [Provider.mymemory, Provider.libretranslate] := by
  rcases translate_cases env with ⟨e, _, htr⟩ | ⟨_, htr⟩ | ⟨t, _, _, htr⟩
  · cases e <;> rw [htr] <;> exact Or.inl rfl
  · rw [htr]
    exact Or.inl rfl
  · rcases sequencerResult_cases env t with ⟨s, _, _, hseq⟩ | ⟨_, s, _, _, hseq⟩ |
      ⟨_, _, hseq⟩
    · rw [htr, hseq]
      exact Or.inr (Or.inl rfl)
    · rw [htr, hseq]
      exact Or.inr (Or.inr rfl)
    · rw [htr, hseq]
      exact Or.inr (Or.inr rfl)

/-- C1 (counterexample): the claim keys the fallback on a non-null MyMemory
result, but the handler keys it on truthiness. Here `translate_with_mymemory`
returns the non-null empty string (a whitespace-only `translatedText`), yet
the response is served by LibreTranslate and Provider B is invoked. -/
theorem c1_counterexample :
    (translate_with_mymemory envC1.mmNet).fst ≠ none ∧
    translate envC1 = ⟨okResponse "ok" "Hi" "LibreTranslate", [],
      [Provider.mymemory, Provider.libretranslate]⟩ := by
  exact ⟨by decide, rfl⟩

/-- C1 (amended): for every non-empty input text the handler tries MyMemory
first and each provider at most once: a non-null and non-empty MyMemory result
yields 200 with service `MyMemory` and LibreTranslate is never invoked; when
the MyMemory result is null or empty, a non-null and non-empty LibreTranslate
result yields 200 with service `LibreTranslate`; when both results are null or
empty the response is 503 with `success:false`. -/
theorem c1_fallback_order (env : Env) (t : String)
    (hex : extractText env.body = .ok t) (hne : t ≠ "") :
    ((∃ s, (translate_with_mymemory env.mmNet).fst = some s ∧ s ≠ "" ∧
        translate env = ⟨okResponse s t "MyMemory", saveHistory env t s "MyMemory",
          [Provider.mymemory]⟩) ∨
      (pyTruthyStr (translate_with_mymemory env.mmNet).fst = false ∧
        ∃ s, (translate_with_libretranslate env.ltNet).fst = some s ∧ s ≠ "" ∧
        translate env = ⟨okResponse s t "LibreTranslate",
          saveHistory env t s "LibreTranslate",
          [Provider.mymemory, Provider.libretranslate]⟩) ∨
      (pyTruthyStr (translate_with_mymemory env.mmNet).fst = false ∧
        pyTruthyStr (translate_with_libretranslate env.ltNet).fst = false ∧
        translate env = ⟨errResponse 503 unavailableError, [],
          [Provider.mymemory, Provider.libretranslate]⟩)) ∧
    (translate env).calls.count Provider.mymemory ≤ 1 ∧
    (translate env).calls.count Provider.libretranslate ≤ 1 := by
  have hcalls : (translate env).calls.count Provider.mymemory ≤ 1 ∧
      (translate env).calls.count Provider.libretranslate ≤ 1 := by
    rcases translate_calls env with h | h | h <;> rw [h] <;> exact ⟨by decide, by decide⟩
  refine ⟨?_, hcalls.1, hcalls.2⟩
  rcases translate_cases env with ⟨e, he, _⟩ | ⟨h0, _⟩ | ⟨t2, h2, hne2, htr⟩
  · rw [hex] at he
    cases he
  · rw [hex] at h0
    cases h0
    exact absurd rfl hne
  · rw [hex] at h2
    cases h2
    rcases sequencerResult_cases env t with ⟨s, hs, hsne, hseq⟩ |
      ⟨hf, s, hs, hsne, hseq⟩ | ⟨hf1, hf2, hseq⟩
    · exact Or.inl ⟨s, hs, hsne, by rw [htr, hseq]⟩
    · exact Or.inr (Or.inl ⟨hf, s, hs, hsne, by rw [htr, hseq]⟩)
    · exact Or.inr (Or.inr ⟨hf1, hf2, by rw [htr, hseq]⟩)

/-- C1 witness: a concrete request where MyMemory succeeds. -/
theorem c1_fallback_order_witness :
    (translate envW1).calls.count Provider.mymemory ≤ 1 :=
  (c1_fallback_order envW1 "Hello" rfl (by decide)).2.1

/-- C2: a request whose body is a JSON object with an empty or
whitespace-only `text` field (possibly missing, defaulting to the empty
string) gets a 400 with the user-facing error, whatever the authentication
state, and neither provider client is invoked and no record is written. -/
theorem c2_empty_text (env : Env) (fs : List (String × JVal)) (s : String)
    (hb : env.body = .val (.obj fs))
    (hf : (lookupField fs "text").getD (.str "") = .str s)
    (hs : pyStrip s = "") :
    translate env = ⟨errResponse 400 emptyTextError, [], []⟩ := by
  have hex : extractText env.body = .ok "" := by
    rw [hb]
    simp [extractText, hf, hs]
  simp [translate, translateInner, hex]

/-- C2 witness: an authenticated request with a whitespace-only text. -/
theorem c2_empty_text_witness :
    translate envW2 = ⟨errResponse 400 emptyTextError, [], []⟩ :=
  c2_empty_text envW2 [("text", .str "   ")] "   " rfl rfl rfl

/-- The strip-if-truthy expression yields a value only from a non-empty
string field. -/
theorem stripField_ok_some {tt : JVal} {s : String}
    (h : stripField tt = .ok (some s)) :
    ∃ t, tt = .str t ∧ t ≠ "" ∧ s = pyStrip t := by
  unfold stripField at h
  split at h
  · rename_i htr
    cases tt with
    | str t =>
      refine ⟨t, rfl, ?_, ?_⟩
      · simpa [jTruthy] using htr
      · simp only [Except.ok.injEq, Option.some.injEq] at h
        exact h.symm
    | nullv => exact Except.noConfusion h
    | bool b => exact Except.noConfusion h
    | num n => exact Except.noConfusion h
    | arr xs => exact Except.noConfusion h
    | obj fs => exact Except.noConfusion h
  · simp at h

/-- MyMemory body handling yields a value only under the success shape. -/
theorem readMyMemory_some {v : JVal} {s : String}
    (h : readMyMemory v = .ok (some s)) :
    ∃ fs rd t, v = .obj fs ∧ jEq200 (lookupField fs "responseStatus") = true ∧
      (lookupField fs "responseData").getD (.obj []) = .obj rd ∧
      (lookupField rd "translatedText").getD (.str "") = .str t ∧ t ≠ "" ∧
      s = pyStrip t := by
  cases v with
  | obj fs =>
    simp only [readMyMemory] at h
    split at h
    · rename_i h200
      rcases hrd : (lookupField fs "responseData").getD (.obj []) with
        _ | b | n | st | xs | rd <;> rw [hrd] at h
      case obj =>
        obtain ⟨t, htt, hne, hs⟩ := stripField_ok_some h
        exact ⟨fs, rd, t, rfl, h200, hrd, htt, hne, hs⟩
      all_goals exact Except.noConfusion h
    · simp at h
  | nullv => exact Except.noConfusion h
  | bool b => exact Except.noConfusion h
  | num n => exact Except.noConfusion h
  | str t => exact Except.noConfusion h
  | arr xs => exact Except.noConfusion h

/-- LibreTranslate body handling yields a value only under the success shape. -/
theorem readLibre_some {v : JVal} {s : String}
    (h : readLibre v = .ok (some s)) :
    ∃ fs t, v = .obj fs ∧
      (lookupField fs "translatedText").getD (.str "") = .str t ∧ t ≠ "" ∧
      s = pyStrip t := by
  cases v with
  | obj fs =>
    obtain ⟨t, htt, hne, hs⟩ := stripField_ok_some h
    exact ⟨fs, t, rfl, htt, hne, hs⟩
  | nullv => exact Except.noConfusion h
  | bool b => exact Except.noConfusion h
  | num n => exact Except.noConfusion h
  | str t => exact Except.noConfusion h
  | arr xs => exact Except.noConfusion h

/-- The MyMemory try-block returns a value only on a 200 response whose body
parses to an object with responseStatus 200 and a non-empty string
translatedText. -/
theorem mymemoryInner_ok_some {net : NetResp} {s : String}
    (h : mymemoryInner net = .ok (some s)) :
    ∃ fs rd t, net = .got 200 (.val (.obj fs)) ∧
      jEq200 (lookupField fs "responseStatus") = true ∧
      (lookupField fs "responseData").getD (.obj []) = .obj rd ∧
      (lookupField rd "translatedText").getD (.str "") = .str t ∧ t ≠ "" ∧
      s = pyStrip t := by
  cases net with
  | exn m => exact Except.noConfusion h
  | got st body =>
    simp only [mymemoryInner] at h
    split at h
    · rename_i hst
      subst hst
      cases body with
      | parseError m => exact Except.noConfusion h
      | val v =>
        obtain ⟨fs, rd, t, hv, h200, hrd, htt, hne, hs⟩ := readMyMemory_some h
        exact ⟨fs, rd, t, by rw [hv], h200, hrd, htt, hne, hs⟩
    · simp at h

/-- The LibreTranslate try-block returns a value only on a 200 response whose
body parses to an object with a non-empty string translatedText. -/
theorem libretranslateInner_ok_some {net : NetResp} {s : String}
    (h : libretranslateInner net = .ok (some s)) :
    ∃ fs t, net = .got 200 (.val (.obj fs)) ∧
      (lookupField fs "translatedText").getD (.str "") = .str t ∧ t ≠ "" ∧
      s = pyStrip t := by
  cases net with
  | exn m => exact Except.noConfusion h
  | got st body =>
    simp only [libretranslateInner] at h
    split at h
    · rename_i hst
      subst hst
      cases body with
      | parseError m => exact Except.noConfusion h
      | val v =>
        obtain ⟨fs, t, hv, htt, hne, hs⟩ := readLibre_some h
        exact ⟨fs, t, by rw [hv], htt, hne, hs⟩
    · simp at h

/-- C3 (counterexample): a whitespace-only translatedText field makes each
provider client return the non-null empty string, where the claim demands
null. -/
theorem c3_counterexample :
    (translate_with_mymemory (mmOkNet "  ")).fst = some "" ∧
    (translate_with_libretranslate (ltOkNet "  ")).fst = some "" := ⟨rfl, rfl⟩

/-- C3 (amended): each provider client returns a non-null value exactly when
the HTTP status is 200, the body parses to a JSON object, the provider's
success indicator holds (responseStatus equal to 200 for MyMemory) and the
translated-text field is a non-empty string; the value is that field with
surrounding whitespace stripped — the empty string, not null, when the field
was whitespace-only. In every other case the client returns null. -/
theorem c3_provider_results :
    (∀ net s, (translate_with_mymemory net).fst = some s →
      ∃ fs rd t, net = .got 200 (.val (.obj fs)) ∧
        jEq200 (lookupField fs "responseStatus") = true ∧
        (lookupField fs "responseData").getD (.obj []) = .obj rd ∧
        (lookupField rd "translatedText").getD (.str "") = .str t ∧ t ≠ "" ∧
        s = pyStrip t) ∧
    (∀ fs rd t, jEq200 (lookupField fs "responseStatus") = true →
      (lookupField fs "responseData").getD (.obj []) = .obj rd →
      (lookupField rd "translatedText").getD (.str "") = .str t → t ≠ "" →
      (translate_with_mymemory (.got 200 (.val (.obj fs)))).fst =
        some (pyStrip t)) ∧
    (∀ net s, (translate_with_libretranslate net).fst = some s →
      ∃ fs t, net = .got 200 (.val (.obj fs)) ∧
        (lookupField fs "translatedText").getD (.str "") = .str t ∧ t ≠ "" ∧
        s = pyStrip t) ∧
    (∀ fs t, (lookupField fs "translatedText").getD (.str "") = .str t →
      t ≠ "" →
      (translate_with_libretranslate (.got 200 (.val (.obj fs)))).fst =
        some (pyStrip t)) := by
  refine ⟨?_, ?_, ?_, ?_⟩
  · intro net s h
    rcases hmi : mymemoryInner net with msg | r
    · rw [translate_with_mymemory, hmi] at h
      simp at h
    · rw [translate_with_mymemory, hmi] at h
      simp at h
      subst h
      exact mymemoryInner_ok_some hmi
  · intro fs rd t h200 hrd htt hne
    simp [translate_with_mymemory, mymemoryInner, readMyMemory, h200, hrd, htt,
      stripField, jTruthy, hne]
  · intro net s h
    rcases hli : libretranslateInner net with msg | r
    · rw [translate_with_libretranslate, hli] at h
      simp at h
    · rw [translate_with_libretranslate, hli] at h
      simp at h
      subst h
      exact libretranslateInner_ok_some hli
  · intro fs t htt hne
    simp [translate_with_libretranslate, libretranslateInner, readLibre, htt,
      stripField, jTruthy, hne]

/-- C3 witness: a concrete MyMemory success with surrounding whitespace. -/
theorem c3_provider_results_witness :
    (translate_with_mymemory
        (.got 200 (.val (.obj [("responseStatus", .num 200),
          ("responseData", .obj [("translatedText", .str " hi ")])])))).fst =
      some (pyStrip " hi ") :=
  c3_provider_results.2.1 [("responseStatus", .num 200),
    ("responseData", .obj [("translatedText", .str " hi ")])]
    [("translatedText", .str " hi ")] " hi " rfl rfl rfl (by decide)

/-- C4: when the provider HTTP call raises (timeout, connection failure, any
unexpected exception) or a 200 body fails to parse, each client returns null
— embedded as a total function, it propagates no exception — and writes one
log entry naming the provider and the failure detail. -/
theorem c4_provider_failures (msg : String) :
    translate_with_mymemory (.exn msg) =
      (none, ["MyMemory API error: " ++ msg]) ∧
    translate_with_libretranslate (.exn msg) =
      (none, ["LibreTranslate API error: " ++ msg]) ∧
    translate_with_mymemory (.got 200 (.parseError msg)) =
      (none, ["MyMemory API error: " ++ msg]) ∧
    translate_with_libretranslate (.got 200 (.parseError msg)) =
      (none, ["LibreTranslate API error: " ++ msg]) :=
  ⟨rfl, rfl, rfl, rfl⟩

/-- A non-empty history write implies an authenticated user and a storage
layer that did not raise. -/
theorem saveHistory_ne_nil {env : Env} {o t svc : String}
    (h : saveHistory env o t svc ≠ []) :
    env.authenticated = true ∧ env.persistRaises = false := by
  by_cases ha : env.authenticated = true
  · by_cases hp : env.persistRaises = true
    · exact absurd (by simp [saveHistory, ha, hp]) h
    · rw [Bool.not_eq_true] at hp
      exact ⟨ha, hp⟩
  · rw [Bool.not_eq_true] at ha
    exact absurd (by simp [saveHistory, ha]) h

/-- The history write of an authenticated user with healthy storage. -/
theorem saveHistory_auth_ok {env : Env} (o t svc : String)
    (ha : env.authenticated = true) (hp : env.persistRaises = false) :
    saveHistory env o t svc = [⟨env.userId, o, t, svc⟩] := by
  simp [saveHistory, ha, hp]

/-- No history write for an unauthenticated caller. -/
theorem saveHistory_unauth {env : Env} (o t svc : String)
    (ha : env.authenticated = false) :
    saveHistory env o t svc = [] := by
  simp [saveHistory, ha]

/-- No record reaches storage when the history write raises. -/
theorem saveHistory_raises {env : Env} (o t svc : String)
    (hp : env.persistRaises = true) :
    saveHistory env o t svc = [] := by
  simp [saveHistory, hp]

/-- C5: when the translation succeeded (status 200) and the history write
raises, the response equals the response the same request would get from a
healthy storage layer, and it is still a success response. -/
theorem c5_persistence_isolation (env : Env)
    (_hp : env.persistRaises = true)
    (h200 : (translate env).response.status = 200) :
    (translate env).response = (translate (withPersistOk env)).response ∧
    (translate env).response.success = true := by
  rcases translate_cases env with ⟨e, _, htr⟩ | ⟨_, htr⟩ | ⟨t, hex, hne, htr⟩
  · rw [htr] at h200
    cases e <;> simp [exnResult, errResponse] at h200
  · rw [htr] at h200
    simp [errResponse] at h200
  · have hex2 : extractText (withPersistOk env).body = .ok t := hex
    have htr2 : translate (withPersistOk env) =
        sequencerResult (withPersistOk env) t := by
      simp [translate, translateInner, hex2, hne]
    rw [htr, htr2]
    refine ⟨(sequencerResult_response_persist env t).symm, ?_⟩
    rw [htr] at h200
    rcases sequencerResult_cases env t with ⟨s, _, _, hseq⟩ | ⟨_, s, _, _, hseq⟩ |
      ⟨_, _, hseq⟩
    · rw [hseq]
      rfl
    · rw [hseq]
      rfl
    · rw [hseq] at h200
      simp [errResponse] at h200

/-- C5 witness: an authenticated request whose history write raises. -/
theorem c5_persistence_isolation_witness :
    (translate envW5).response.success = true :=
  (c5_persistence_isolation envW5 rfl rfl).2

/-- C6 (counterexample): an authenticated request whose translation succeeds
(status 200) while the history write raises creates zero records, where the
claim demands exactly one. -/
theorem c6_counterexample :
    (translate envC6).response.status = 200 ∧ envC6.authenticated = true ∧
    (translate envC6).records = [] := ⟨rfl, rfl, rfl⟩

/-- C6 (amended): a record is created only within a request whose translation
succeeded and whose caller is authenticated; a successful translation for an
authenticated user creates exactly one record matching the response body
provided the history write does not raise (if it raises, zero records are
created, by the best-effort design); a failed translation, or a successful
one by an unauthenticated caller, creates zero records. -/
theorem c6_record_invariant (env : Env) :
    ((translate env).records ≠ [] →
      (translate env).response.status = 200 ∧ env.authenticated = true) ∧
    ((translate env).response.status = 200 → env.authenticated = true →
      env.persistRaises = false →
      (translate env).records.length = 1 ∧
      ∀ rec, rec ∈ (translate env).records → rec.user_id = env.userId ∧
        (translate env).response.original_text = some rec.original_text ∧
        (translate env).response.translated_text = some rec.translated_text ∧
        (translate env).response.service = some rec.service_used) ∧
    (env.authenticated = false → (translate env).records = []) ∧
    (env.persistRaises = true → (translate env).records = []) ∧
    ((translate env).response.status ≠ 200 → (translate env).records = []) := by
  rcases translate_cases env with ⟨e, _, htr⟩ | ⟨_, htr⟩ | ⟨t, hex, hne, htr⟩
  · rw [htr]
    cases e <;>
      exact ⟨fun hc => absurd rfl hc,
        fun h200 => by simp [exnResult, errResponse] at h200,
        fun _ => rfl, fun _ => rfl, fun _ => rfl⟩
  · rw [htr]
    exact ⟨fun hc => absurd rfl hc,
      fun h200 => by simp [errResponse] at h200,
      fun _ => rfl, fun _ => rfl, fun _ => rfl⟩
  · rw [htr]
    rcases sequencerResult_cases env t with ⟨s, _, _, hseq⟩ | ⟨_, s, _, _, hseq⟩ |
      ⟨_, _, hseq⟩
    · rw [hseq]
      refine ⟨fun hc => ⟨rfl, (saveHistory_ne_nil hc).1⟩,
        fun _ hauth hpers => ?_,
        fun hnauth => saveHistory_unauth _ _ _ hnauth,
        fun hp => saveHistory_raises _ _ _ hp,
        fun hst => absurd rfl hst⟩
      constructor
      · simp [saveHistory_auth_ok _ _ _ hauth hpers]
      · intro rec hrec
        simp [saveHistory_auth_ok _ _ _ hauth hpers] at hrec
        subst hrec
        exact ⟨rfl, rfl, rfl, rfl⟩
    · rw [hseq]
      refine ⟨fun hc => ⟨rfl, (saveHistory_ne_nil hc).1⟩,
        fun _ hauth hpers => ?_,
        fun hnauth => saveHistory_unauth _ _ _ hnauth,
        fun hp => saveHistory_raises _ _ _ hp,
        fun hst => absurd rfl hst⟩
      constructor
      · simp [saveHistory_auth_ok _ _ _ hauth hpers]
      · intro rec hrec
        simp [saveHistory_auth_ok _ _ _ hauth hpers] at hrec
        subst hrec
        exact ⟨rfl, rfl, rfl, rfl⟩
    · rw [hseq]
      exact ⟨fun hc => absurd rfl hc,
        fun h200 => by simp [errResponse] at h200,
        fun _ => rfl, fun _ => rfl, fun _ => rfl⟩

/-- C6 witness: an authenticated success with healthy storage writes exactly
one record. -/
theorem c6_record_invariant_witness :
    (translate envW6).records.length = 1 :=
  ((c6_record_invariant envW6).2.1 rfl rfl rfl).1

/-- C7: `GET /history` redirects an unauthenticated caller to the login flow;
for an authenticated caller it renders the query result, which holds at most
50 records, all owned by the caller, ordered newest first by creation time. -/
theorem c7_history (authed : Bool) (uid : String) (store : List StoredTranslation) :
    (authed = false → history authed uid store = .redirectLogin) ∧
    (authed = true → history authed uid store = .page (historyQuery store uid)) ∧
    (historyQuery store uid).length ≤ 50 ∧
    (∀ t, t ∈ historyQuery store uid → t.user_id = some uid) ∧
    List.Sorted newerFirst (historyQuery store uid) := by
  refine ⟨fun h => by simp [history, h], fun h => by simp [history, h], ?_, ?_, ?_⟩
  · simp [historyQuery, List.length_take]
  · intro t ht
    have h1 : t ∈ List.insertionSort newerFirst
        (store.filter (fun r => r.user_id == some uid)) :=
      (List.take_sublist _ _).subset ht
    rw [List.mem_insertionSort] at h1
    have h2 := List.mem_filter.mp h1
    simpa using h2.2
  · exact List.Pairwise.sublist (List.take_sublist _ _)
      (List.sorted_insertionSort newerFirst _)

/-- C7 witness: a concrete store, redirected when logged out and listed when
logged in. -/
theorem c7_history_witness :
    history false "u1" storeW7 = .redirectLogin ∧
    history true "u1" storeW7 = .page (historyQuery storeW7 "u1") :=
  ⟨(c7_history false "u1" storeW7).1 rfl, (c7_history true "u1" storeW7).2.1 rfl⟩

/-- C8: for every behaviour of the collaborators the handler produces a
well-formed response — it is a total function, so no exception escapes to the
transport layer — and an exception escaping the try-block maps timeout to
504, connection error to 503, and anything else to 500 with the generic
message. -/
theorem c8_total_handler (env : Env) :
    wellFormedResponse (translate env).response ∧
    (translateInner env = .error .timeout →
      translate env = ⟨errResponse 504 timeoutError, [], []⟩) ∧
    (translateInner env = .error .connErr →
      translate env = ⟨errResponse 503 connectError, [], []⟩) ∧
    (translateInner env = .error .other →
      translate env = ⟨errResponse 500 unexpectedError, [], []⟩) := by
  refine ⟨?_, fun h => by simp [translate, h, exnResult],
    fun h => by simp [translate, h, exnResult],
    fun h => by simp [translate, h, exnResult]⟩
  rcases translate_cases env with ⟨e, _, htr⟩ | ⟨_, htr⟩ | ⟨t, _, _, htr⟩
  · rw [htr]
    cases e <;> simp [exnResult, wellFormedResponse, errResponse]
  · rw [htr]
    simp [wellFormedResponse, errResponse]
  · rcases sequencerResult_cases env t with ⟨s, _, _, hseq⟩ | ⟨_, s, _, _, hseq⟩ |
      ⟨_, _, hseq⟩ <;> rw [htr, hseq] <;>
      simp [wellFormedResponse, okResponse, errResponse]

/-- C8 witness: a request whose body parsing raises a timeout. -/
theorem c8_total_handler_witness :
    translate envW8 = ⟨errResponse 504 timeoutError, [], []⟩ :=
  (c8_total_handler envW8).2.1 rfl

/-- C9: a body that parses to JSON null or to any non-object value makes
extraction of the text field raise, so the handler answers 500 with the
generic message; the 400 empty-text response only ever arises from a body
that parsed to a JSON object. -/
theorem c9_nonobject_body (env : Env) :
    (∀ v, env.body = .val v → (∀ fs, v ≠ JVal.obj fs) →
      translate env = ⟨errResponse 500 unexpectedError, [], []⟩) ∧
    ((translate env).response.status = 400 → ∃ fs, env.body = .val (.obj fs)) := by
  constructor
  · intro v hb hno
    have hex : extractText env.body = .error .other := by
      rw [hb]
      cases v with
      | obj fs => exact absurd rfl (hno fs)
      | nullv => rfl
      | bool b => rfl
      | num n => rfl
      | str s => rfl
      | arr xs => rfl
    simp [translate, translateInner, hex, exnResult]
  · intro h400
    rcases translate_cases env with ⟨e, _, htr⟩ | ⟨hex, _⟩ | ⟨t, hex, _, htr⟩
    · rw [htr] at h400
      cases e <;> simp [exnResult, errResponse] at h400
    · exact extractText_ok_obj hex
    · rcases sequencerResult_cases env t with ⟨s, _, _, hseq⟩ | ⟨_, s, _, _, hseq⟩ |
        ⟨_, _, hseq⟩ <;> rw [htr, hseq] at h400 <;>
        simp [okResponse, errResponse] at h400

/-- C9 witness: a body that parses to a JSON array. -/
theorem c9_nonobject_body_witness :
    translate envW9 = ⟨errResponse 500 unexpectedError, [], []⟩ :=
  (c9_nonobject_body envW9).1 (.arr []) rfl (fun _ h => JVal.noConfusion h)

/-- C10: every 200 response is a success body whose translated text is
non-empty (the branch is guarded by truthiness), whose original text is
exactly the trimmed input text, and whose service is `MyMemory` or
`LibreTranslate`. -/
theorem c10_success_shape (env : Env)
    (h200 : (translate env).response.status = 200) :
    (translate env).response.success = true ∧
    ∃ t orig svc, (translate env).response = okResponse t orig svc ∧ t ≠ "" ∧
      extractText env.body = .ok orig ∧ orig ≠ "" ∧
      (svc = "MyMemory" ∨ svc = "LibreTranslate") := by
  rcases translate_cases env with ⟨e, _, htr⟩ | ⟨_, htr⟩ | ⟨t, hex, hne, htr⟩
  · rw [htr] at h200
    cases e <;> simp [exnResult, errResponse] at h200
  · rw [htr] at h200
    simp [errResponse] at h200
  · rcases sequencerResult_cases env t with ⟨s, _, hsne, hseq⟩ |
      ⟨_, s, _, hsne, hseq⟩ | ⟨_, _, hseq⟩
    · rw [htr, hseq]
      exact ⟨rfl, s, t, "MyMemory", rfl, hsne, hex, hne, Or.inl rfl⟩
    · rw [htr, hseq]
      exact ⟨rfl, s, t, "LibreTranslate", rfl, hsne, hex, hne, Or.inr rfl⟩
    · rw [htr, hseq] at h200
      simp [errResponse] at h200

/-- C10 witness: a success with whitespace around the input text. -/
theorem c10_success_shape_witness :
    (translate envW10).response.success = true :=
  (c10_success_shape envW10 rfl).1

end App
